import Mathlib

/-!
Shallow embedding of the GuidedFlow front-end runtime core: the guide graph
data model, the role-filtered visible-step computation, and the customer
(CustomerWidget, src/unnamed/part_000) and agent (AgentPortal) flow handlers,
together with the authentication role checks and the 401 response interceptor
(AuthContext).  Network effects (axios calls) are modelled as emitted
requests paired with an externally supplied success oracle `sink : Nat → Bool`
giving the outcome of the n-th awaited call of a handler invocation; a failed
call raises into the handler's catch block, exactly as a rejected `await`
does in the source.  Toast notifications are collected as strings.
-/

namespace GuidedFlow

/-- Input field spec of a step (src data model: id, label, placeholder,
type, required, options).  `fieldType` embeds the JS field `type`. -/
structure InputField where
  id : String
  label : Option String
  placeholder : Option String
  fieldType : Option String
  required : Bool
  options : List (String × String)
  deriving Repr, DecidableEq

/-- The `data` record of a graph node; every field is read defensively in the
source (`node.data?.x`), so each is optional.  `stepType` embeds `data.type`. -/
structure NodeData where
  title : Option String
  content : Option String
  slug : Option String
  visibility : Option String
  inputs : Option (List InputField)
  escalationEnabled : Bool
  escalationCategory : Option String
  stepType : Option String
  deriving Repr, DecidableEq

/-- A graph node (`version.graph.nodes[i]`); `data` itself may be absent. -/
structure FlowNode where
  id : String
  data : Option NodeData
  deriving Repr, DecidableEq

/-- An authored edge; the execution engine never reads edges. -/
structure Edge where
  source : String
  target : String
  deriving Repr, DecidableEq

/-- `version.graph`: ordered node sequence plus the (traversal-unused) edges. -/
structure Graph where
  nodes : List FlowNode
  edges : List Edge
  deriving Repr, DecidableEq

/-- `node.data?.visibility`. -/
def FlowNode.visibility (n : FlowNode) : Option String :=
  n.data.bind NodeData.visibility

/-- `node.data?.slug`. -/
def FlowNode.slug (n : FlowNode) : Option String :=
  n.data.bind NodeData.slug

/-- `node.data?.title`. -/
def FlowNode.title (n : FlowNode) : Option String :=
  n.data.bind NodeData.title

/-- The two runtime roles (the customer widget runs as `customer`, the agent
portal as `agent`). -/
inductive Role where
  | customer
  | agent
  deriving Repr, DecidableEq

/-- The customer widget's visibility filter
(`nodes.filter(node => node.data?.visibility !== 'agent')`,
src/unnamed/part_000 line 111). -/
def customerVisibleNodes (nodes : List FlowNode) : List FlowNode :=
  nodes.filter (fun node => !(node.visibility == some "agent"))

/-- The role-filtered visible sequence: the customer widget filters out
agent-only nodes, the agent portal traverses `currentVersion.graph.nodes`
unfiltered (AgentPortal.js line 135). -/
def visibleSteps (nodes : List FlowNode) (role : Role) : List FlowNode :=
  match role with
  | Role.customer => customerVisibleNodes nodes
  | Role.agent => nodes

/-- The customer widget's "step N of M" denominator
(src/unnamed/part_000 line 225). -/
def cwStepDenominator (nodes : List FlowNode) : Nat :=
  (nodes.filter (fun n => !(n.visibility == some "agent"))).length

/-- The agent portal's "step N of M" denominator (AgentPortal.js line 358). -/
def apStepDenominator (nodes : List FlowNode) : Nat :=
  nodes.length

/-- The in-progress answer map: a JS object keyed by input id, embedded as an
association list in key-insertion order. -/
abbrev AnswerMap := List (String × String)

/-- `answers[inputId]` (absent key reads as `undefined`). -/
def lookupAnswer (answers : AnswerMap) (key : String) : Option String :=
  (answers.find? (fun p => p.1 == key)).map Prod.snd

/-- `setAnswers(prev => ({...prev, [inputId]: value}))`: overwrite in place
when the key exists, append otherwise (JS object spread semantics). -/
def handleInputChange (answers : AnswerMap) (inputId value : String) : AnswerMap :=
  if answers.any (fun p => p.1 == inputId) then
    answers.map (fun p => if p.1 == inputId then (inputId, value) else p)
  else
    answers ++ [(inputId, value)]

/-- JS `String.prototype.trim`: strip leading and trailing whitespace.
Defined by structural recursion over the character list so that it computes
by kernel reduction. -/
def jsTrim (s : String) : String :=
  String.mk
    (((s.data.dropWhile Char.isWhitespace).reverse.dropWhile
        Char.isWhitespace).reverse)

/-- `!answers[input.id]?.trim()`: true for an absent answer and for one that
is empty after trimming whitespace. -/
def isBlankAnswer (v : Option String) : Bool :=
  match v with
  | none => true
  | some s => jsTrim s == ""

/-- The required inputs of a step's data
(`currentStep.data?.inputs?.filter(input => input.required) || []`). -/
def cwRequiredInputs (d : Option NodeData) : List InputField :=
  ((d.bind NodeData.inputs).getD []).filter (fun i => i.required)

/-- The required inputs whose answers are missing or blank
(`requiredInputs.filter(input => !answers[input.id]?.trim())`). -/
def cwMissingInputs (d : Option NodeData) (answers : AnswerMap) : List InputField :=
  (cwRequiredInputs d).filter (fun i => isBlankAnswer (lookupAnswer answers i.id))

/-- The predicate of the customer widget's step lookup
(`node.data?.slug === stepSlug || node.id === stepSlug`). -/
def stepMatches (s : String) (node : FlowNode) : Bool :=
  node.slug == some s || node.id == s

/-- src/unnamed/part_000 lines 62-73: resolve the starting step index from an
optional step slug.  The lookup runs over the raw, role-unfiltered
`versionData.graph.nodes`; a miss (and a falsy slug) falls back to index 0. -/
def resolveStepIndexCW (nodes : List FlowNode) (stepSlug : Option String) : Nat :=
  match stepSlug with
  | none => 0
  | some s =>
      if s == "" then 0
      else
        match nodes.findIdx? (stepMatches s) with
        | some i => i
        | none => 0

/-- The position the spec describes for `resolveStepIndex`: the index of the
first matching step counted over the role-filtered `visibleSteps` sequence
(spec wording, for comparison with the source's `resolveStepIndexCW`). -/
def specResolveStepIndex (nodes : List FlowNode) (role : Role)
    (stepSlug : Option String) : Nat :=
  match stepSlug with
  | none => 0
  | some s =>
      match (visibleSteps nodes role).findIdx? (stepMatches s) with
      | some i => i
      | none => 0

/-- The agent portal's CRM form fields. -/
structure CrmData where
  crm_id : String
  email : String
  account_id : String
  ticket_id : String
  deriving Repr, DecidableEq

/-- The customer widget's optional contact info for an escalation. -/
structure CustomerContact where
  email : String
  phone : String
  deriving Repr, DecidableEq

/-- One entry of the customer escalation's history snapshot
(`{step: node.data?.title, answers: answers}`). -/
structure SnapshotEntry where
  step : Option String
  answers : AnswerMap
  deriving Repr, DecidableEq

/-- The customer widget's escalation payload (src/unnamed/part_000 163-174). -/
structure CWEscalationData where
  session_id : String
  guide_id : String
  step_id : Option String
  category : String
  message : String
  history_snapshot : List SnapshotEntry
  contact : CustomerContact
  deriving Repr, DecidableEq

/-- The agent portal's escalation contact (`{agent_email, crm_id}`). -/
structure AgentContact where
  agent_email : String
  crm_id : String
  deriving Repr, DecidableEq

/-- The agent portal's escalation payload (AgentPortal.js 196-207); its
history snapshot is a slice of raw nodes, with no answers attached. -/
structure APEscalationData where
  session_id : String
  guide_id : String
  step_id : String
  category : String
  message : String
  history_snapshot : List FlowNode
  contact : AgentContact
  deriving Repr, DecidableEq

/-- The `props` bags of the events the runtimes post. -/
inductive EventProps where
  | answersProps (answers : AnswerMap)
  | cwCompletionProps (total_steps : Nat) (completion_type : String)
  | apCompletionProps (total_steps : Nat)
  | cwEscalationProps (d : CWEscalationData)
  | crmProps (d : CrmData)
  deriving Repr, DecidableEq

/-- One outgoing backend request, as the handlers construct them. -/
inductive Request where
  | postEvent (session_id : String) (step_id : Option String)
      (action : String) (props : EventProps)
  | postSessionComplete (session_id : String)
  | postCWEscalation (d : CWEscalationData)
  | postAPEscalation (d : APEscalationData)
  | patchCrmContext (session_id : String) (crm : CrmData)
      (agent_id : String) (agent_name : String)
  deriving Repr, DecidableEq

/-- A performed backend call: the request together with whether the awaited
call succeeded (`ok = false` means the `await` rejected). -/
structure Call where
  req : Request
  ok : Bool
  deriving Repr, DecidableEq

/-- What one handler invocation does: the resulting component state, the
backend calls it performed in order, and the toasts it showed. -/
structure HandlerOutput (σ : Type) where
  state : σ
  calls : List Call
  toasts : List String
  deriving Repr, DecidableEq

/-- How many of the performed calls are events with the given action tag. -/
def countEvents (calls : List Call) (tag : String) : Nat :=
  (calls.filter (fun c =>
    match c.req with
    | Request.postEvent _ _ a _ => a == tag
    | _ => false)).length

/-- The customer widget's `currentStep` state variable: a graph node, the
synthetic completion screen `{data:{type:'completion',...}}` set by
`completeSession`, or null. -/
inductive CWCurrent where
  | node (n : FlowNode)
  | completionScreen
  | noStep
  deriving Repr, DecidableEq

/-- The `data` read from the customer widget's current step.  The synthetic
completion screen carries its literal data record; reading `.data` off a null
step is the JS TypeError case, handled before this is consulted. -/
def CWCurrent.dataOf : CWCurrent → Option NodeData
  | CWCurrent.node n => n.data
  | CWCurrent.completionScreen =>
      some
        { title := some "Thank you!"
          content := some "You have successfully completed this guided flow. If you need further assistance, please contact support."
          slug := none
          visibility := none
          inputs := none
          escalationEnabled := false
          escalationCategory := none
          stepType := some "completion" }
  | CWCurrent.noStep => none

/-- `currentStep.id`: the synthetic completion screen has no `id` field, so
the read yields `undefined` (embedded as `none`). -/
def CWCurrent.stepId : CWCurrent → Option String
  | CWCurrent.node n => some n.id
  | _ => none

/-- `currentStep.data?.escalationCategory || 'general'` (JS `||`: an absent
or empty-string category falls back to 'general'). -/
def escCategoryOrGeneral (d : Option NodeData) : String :=
  match d.bind NodeData.escalationCategory with
  | none => "general"
  | some s => if s == "" then "general" else s

/-- The customer widget's traversal state: `stepIndex`, `currentStep`,
`answers`. -/
structure CWState where
  stepIndex : Nat
  currentStep : CWCurrent
  answers : AnswerMap
  deriving Repr, DecidableEq

/-- The customer widget's escalation-modal state (`showEscalation`,
`escalationMessage`, `customerInfo`). -/
structure CWEscalationForm where
  showEscalation : Bool
  escalationMessage : String
  customerInfo : CustomerContact
  deriving Repr, DecidableEq

/-- src/unnamed/part_000 lines 129-154, `completeSession`: POST
`/api/sessions/:id/complete`, then the `session_completed` event, then show
the synthetic completion screen.  A rejected call lands in the local catch:
state is kept and an error toast is shown.  `base` is the index of the
handler invocation's next awaited call. -/
def cwCompleteSession (sessionId : String) (sink : Nat → Bool) (base : Nat)
    (st : CWState) : HandlerOutput CWState :=
  let completeReq := Request.postSessionComplete sessionId
  if sink base then
    let ev := Request.postEvent sessionId none "session_completed"
      (EventProps.cwCompletionProps (st.stepIndex + 1) "customer_completed")
    if sink (base + 1) then
      { state := { st with currentStep := CWCurrent.completionScreen }
        calls := [{ req := completeReq, ok := true }, { req := ev, ok := true }]
        toasts := [] }
    else
      { state := st
        calls := [{ req := completeReq, ok := true }, { req := ev, ok := false }]
        toasts := ["Failed to complete session"] }
  else
    { state := st
      calls := [{ req := completeReq, ok := false }]
      toasts := ["Failed to complete session"] }

/-- src/unnamed/part_000 lines 90-127, `handleStepComplete`: validate the
current step's required inputs; on success POST the `step_completed` event,
then either move to the next node of the role-filtered sequence (clearing
the answers) or run `completeSession`.  Any rejected `await` lands in the
catch: state is kept and "Failed to complete step" is shown.  A null
`currentStep` makes the property read itself throw into the same catch. -/
def cwHandleStepComplete (nodes : List FlowNode) (sessionId : String)
    (sink : Nat → Bool) (st : CWState) : HandlerOutput CWState :=
  match st.currentStep with
  | CWCurrent.noStep =>
      { state := st, calls := [], toasts := ["Failed to complete step"] }
  | cur =>
      let missing := cwMissingInputs cur.dataOf st.answers
      if missing.length > 0 then
        { state := st, calls := []
          toasts := ["Please fill in all required fields"] }
      else
        let ev := Request.postEvent sessionId cur.stepId "step_completed"
          (EventProps.answersProps st.answers)
        if sink 0 then
          let nextIndex := st.stepIndex + 1
          match (customerVisibleNodes nodes)[nextIndex]? with
          | some nextNode =>
              { state :=
                  { stepIndex := nextIndex
                    currentStep := CWCurrent.node nextNode
                    answers := [] }
                calls := [{ req := ev, ok := true }]
                toasts := [] }
          | none =>
              let rest := cwCompleteSession sessionId sink 1 st
              { state := rest.state
                calls := { req := ev, ok := true } :: rest.calls
                toasts := rest.toasts }
        else
          { state := st
            calls := [{ req := ev, ok := false }]
            toasts := ["Failed to complete step"] }

/-- The escalation payload the customer widget constructs
(src/unnamed/part_000 lines 163-174): the history snapshot slices the raw,
role-unfiltered `version.graph.nodes` at `stepIndex + 1` and pairs every
sliced node's title with the current `answers` map. -/
def cwEscalationData (nodes : List FlowNode) (sessionId guideId : String)
    (st : CWState) (form : CWEscalationForm) : CWEscalationData :=
  { session_id := sessionId
    guide_id := guideId
    step_id := st.currentStep.stepId
    category := escCategoryOrGeneral st.currentStep.dataOf
    message := form.escalationMessage
    history_snapshot :=
      (nodes.take (st.stepIndex + 1)).map
        (fun node => { step := node.title, answers := st.answers })
    contact := form.customerInfo }

/-- src/unnamed/part_000 lines 156-192, `handleEscalation`: reject a blank
message with a toast; otherwise POST the escalation, then the
`escalation_submitted` event, then close the modal and clear the message.
A rejected call keeps all state and shows "Failed to submit escalation".
A null `currentStep` throws on the `currentStep.id` read into the catch. -/
def cwHandleEscalation (nodes : List FlowNode) (sessionId guideId : String)
    (sink : Nat → Bool) (st : CWState) (form : CWEscalationForm) :
    HandlerOutput (CWState × CWEscalationForm) :=
  if jsTrim form.escalationMessage == "" then
    { state := (st, form), calls := [], toasts := ["Please describe your issue"] }
  else
    match st.currentStep with
    | CWCurrent.noStep =>
        { state := (st, form), calls := []
          toasts := ["Failed to submit escalation"] }
    | _ =>
        let d := cwEscalationData nodes sessionId guideId st form
        let escReq := Request.postCWEscalation d
        if sink 0 then
          let ev := Request.postEvent sessionId st.currentStep.stepId
            "escalation_submitted" (EventProps.cwEscalationProps d)
          if sink 1 then
            { state :=
                (st,
                  { showEscalation := false
                    escalationMessage := ""
                    customerInfo := form.customerInfo })
              calls := [{ req := escReq, ok := true }, { req := ev, ok := true }]
              toasts := ["Your issue has been escalated to our support team. They will contact you soon."] }
          else
            { state := (st, form)
              calls := [{ req := escReq, ok := true }, { req := ev, ok := false }]
              toasts := ["Failed to submit escalation"] }
        else
          { state := (st, form)
            calls := [{ req := escReq, ok := false }]
            toasts := ["Failed to submit escalation"] }

/-- The agent portal's component state: traversal state plus the CRM form. -/
structure APState where
  stepIndex : Nat
  currentStep : Option FlowNode
  answers : AnswerMap
  crmData : CrmData
  deriving Repr, DecidableEq

/-- AgentPortal.js lines 151-169, `completeSession`: POST complete, then the
`session_completed` event, then a success toast and the clipboard CRM note
(a local UI effect, outside this model).  No state field changes: the agent
portal has no completion screen. -/
def apCompleteSession (sessionId : String) (sink : Nat → Bool) (base : Nat)
    (st : APState) : HandlerOutput APState :=
  let completeReq := Request.postSessionComplete sessionId
  if sink base then
    let ev := Request.postEvent sessionId none "session_completed"
      (EventProps.apCompletionProps (st.stepIndex + 1))
    if sink (base + 1) then
      { state := st
        calls := [{ req := completeReq, ok := true }, { req := ev, ok := true }]
        toasts := ["Session completed successfully!"] }
    else
      { state := st
        calls := [{ req := completeReq, ok := true }, { req := ev, ok := false }]
        toasts := ["Failed to complete session"] }
  else
    { state := st
      calls := [{ req := completeReq, ok := false }]
      toasts := ["Failed to complete session"] }

/-- AgentPortal.js lines 123-149, `handleStepComplete`: POST the
`step_completed` event, then advance over the raw node sequence or complete.
There is no required-input validation in this handler.  A rejected call
lands in the catch with state kept. -/
def apHandleStepComplete (nodes : List FlowNode) (sessionId : String)
    (sink : Nat → Bool) (st : APState) : HandlerOutput APState :=
  match st.currentStep with
  | none =>
      { state := st, calls := [], toasts := ["Failed to complete step"] }
  | some cur =>
      let ev := Request.postEvent sessionId (some cur.id) "step_completed"
        (EventProps.answersProps st.answers)
      if sink 0 then
        let nextIndex := st.stepIndex + 1
        match nodes[nextIndex]? with
        | some nextNode =>
            { state :=
                { st with
                  stepIndex := nextIndex
                  currentStep := some nextNode
                  answers := [] }
              calls := [{ req := ev, ok := true }]
              toasts := [] }
        | none =>
            let rest := apCompleteSession sessionId sink 1 st
            { state := rest.state
              calls := { req := ev, ok := true } :: rest.calls
              toasts := rest.toasts }
      else
        { state := st
          calls := [{ req := ev, ok := false }]
          toasts := ["Failed to complete step"] }

/-- The agent portal's navigation dispatch (AgentPortal.js lines 430-446):
the "Next Step" button runs `handleStepComplete` while
`stepIndex < nodes.length - 1` (JS arithmetic, so the comparison is over
integers), and the final step's button runs `completeSession` directly. -/
def apAdvance (nodes : List FlowNode) (sessionId : String) (sink : Nat → Bool)
    (st : APState) : HandlerOutput APState :=
  if (st.stepIndex : Int) < (nodes.length : Int) - 1 then
    apHandleStepComplete nodes sessionId sink st
  else
    apCompleteSession sessionId sink 0 st

/-- `${currentStep.data?.title}` inside a JS template literal: an absent
title renders as the string "undefined". -/
def jsInterpolate (v : Option String) : String :=
  match v with
  | none => "undefined"
  | some s => s

/-- The agent portal's escalation payload (AgentPortal.js lines 196-207):
the history snapshot is the raw first `stepIndex + 1` nodes. -/
def apEscalationData (nodes : List FlowNode) (sessionId guideId agentEmail : String)
    (st : APState) (cur : FlowNode) : APEscalationData :=
  { session_id := sessionId
    guide_id := guideId
    step_id := cur.id
    category := escCategoryOrGeneral cur.data
    message := "Agent escalation from step: " ++ jsInterpolate cur.title
    history_snapshot := nodes.take (st.stepIndex + 1)
    contact := { agent_email := agentEmail, crm_id := st.crmData.crm_id } }

/-- AgentPortal.js lines 194-215, `handleEscalation`: POST the escalation
payload and toast the outcome.  No `escalation_submitted` event is posted
and no message check exists (the message is a generated template string);
state is untouched. -/
def apHandleEscalation (nodes : List FlowNode) (sessionId guideId agentEmail : String)
    (sink : Nat → Bool) (st : APState) : HandlerOutput APState :=
  match st.currentStep with
  | none =>
      { state := st, calls := [], toasts := ["Failed to submit escalation"] }
  | some cur =>
      let d := apEscalationData nodes sessionId guideId agentEmail st cur
      if sink 0 then
        { state := st
          calls := [{ req := Request.postAPEscalation d, ok := true }]
          toasts := ["Escalation submitted successfully"] }
      else
        { state := st
          calls := [{ req := Request.postAPEscalation d, ok := false }]
          toasts := ["Failed to submit escalation"] }

/-- AgentPortal.js lines 88-114, `handleCrmSubmit`: reject a blank CRM id
with a toast and no calls; otherwise PATCH the CRM context and, when that
succeeds, POST the `crm_form_submitted` event.  `crmData` is never written
by this handler. -/
def apHandleCrmSubmit (sessionId agentId agentName : String) (sink : Nat → Bool)
    (st : APState) : HandlerOutput APState :=
  if jsTrim st.crmData.crm_id == "" then
    { state := st, calls := [], toasts := ["CRM ID is required"] }
  else
    let patchReq := Request.patchCrmContext sessionId st.crmData agentId agentName
    if sink 0 then
      let ev := Request.postEvent sessionId none "crm_form_submitted"
        (EventProps.crmProps st.crmData)
      if sink 1 then
        { state := st
          calls := [{ req := patchReq, ok := true }, { req := ev, ok := true }]
          toasts := ["CRM information saved"] }
      else
        { state := st
          calls := [{ req := patchReq, ok := true }, { req := ev, ok := false }]
          toasts := ["Failed to save CRM data"] }
    else
      { state := st
        calls := [{ req := patchReq, ok := false }]
        toasts := ["Failed to save CRM data"] }

/-- An authenticated user as AuthContext reads it (`/api/auth/me`). -/
structure AuthUser where
  id : String
  email : String
  role : String
  deriving Repr, DecidableEq

/-- The argument shapes `hasRole` accepts: a single role string or an array
of role strings. -/
inductive RoleQuery where
  | one (role : String)
  | many (roles : List String)
  deriving Repr, DecidableEq

/-- AuthContext.js lines 124-130, `hasRole`: false with no user; an array
argument asks membership, a string argument asks equality. -/
def hasRole (user : Option AuthUser) (q : RoleQuery) : Bool :=
  match user with
  | none => false
  | some u =>
      match q with
      | RoleQuery.one r => u.role == r
      | RoleQuery.many rs => rs.contains u.role

/-- `isAdmin = () => hasRole('admin')`. -/
def isAdmin (user : Option AuthUser) : Bool :=
  hasRole user (RoleQuery.one "admin")

/-- `isAgent = () => hasRole(['agent', 'admin'])`. -/
def isAgent (user : Option AuthUser) : Bool :=
  hasRole user (RoleQuery.many ["agent", "admin"])

/-- `isCustomer = () => hasRole('customer')`. -/
def isCustomer (user : Option AuthUser) : Bool :=
  hasRole user (RoleQuery.one "customer")

/-- The client's authentication state: the stored token (localStorage plus
the `token` state variable, which move together) and the current user. -/
structure AuthState where
  token : Option String
  user : Option AuthUser
  deriving Repr, DecidableEq

/-- AuthContext.js lines 117-122, `logout`: remove the stored token, clear
the current user, toast. -/
def logout (_st : AuthState) : AuthState × List String :=
  ({ token := none, user := none }, ["Logged out successfully"])

/-- An axios error response as the interceptor reads it: the HTTP status (if
a response arrived) and the request's URL, identifying the API operation. -/
structure AxiosErrorResponse where
  status : Option Nat
  url : String
  deriving Repr, DecidableEq

/-- AuthContext.js lines 42-51, the response interceptor's error branch: a
401 status runs `logout()` and toasts; every other error passes through. -/
def responseInterceptorOnError (st : AuthState) (err : AxiosErrorResponse) :
    AuthState × List String :=
  if err.status == some 401 then
    let r := logout st
    (r.1, r.2 ++ ["Session expired. Please login again."])
  else
    (st, [])

/-! Concrete fixtures for counterexamples and witnesses. -/

/-- A sink under which every backend call succeeds. -/
def allOk : Nat → Bool := fun _ => true

/-- A sink under which every backend call is rejected. -/
def allFail : Nat → Bool := fun _ => false

/-- A required text input keyed "q1". -/
def inputQ1 : InputField :=
  { id := "q1", label := some "Question 1", placeholder := none
    fieldType := some "text", required := true, options := [] }

/-- A customer-visible instruction step with no inputs. -/
def nodeA : FlowNode :=
  { id := "a"
    data := some
      { title := some "A", content := none, slug := some "a"
        visibility := some "customer", inputs := none
        escalationEnabled := true, escalationCategory := none
        stepType := some "instruction" } }

/-- A customer-visible question step whose input "q1" is required. -/
def nodeB : FlowNode :=
  { id := "b"
    data := some
      { title := some "B", content := none, slug := some "b"
        visibility := some "customer", inputs := some [inputQ1]
        escalationEnabled := true, escalationCategory := none
        stepType := some "question" } }

/-- An agent-only step. -/
def nodeG : FlowNode :=
  { id := "g"
    data := some
      { title := some "G0", content := none, slug := some "g"
        visibility := some "agent", inputs := none
        escalationEnabled := false, escalationCategory := none
        stepType := some "instruction" } }

/-- A customer-visible step titled "C0". -/
def nodeC0 : FlowNode :=
  { id := "c0"
    data := some
      { title := some "C0", content := none, slug := some "c0"
        visibility := some "customer", inputs := none
        escalationEnabled := true, escalationCategory := none
        stepType := some "instruction" } }

/-- A customer-visible step titled "C1". -/
def nodeC1 : FlowNode :=
  { id := "c1"
    data := some
      { title := some "C1", content := none, slug := some "c1"
        visibility := some "customer", inputs := none
        escalationEnabled := true, escalationCategory := none
        stepType := some "instruction" } }

/-- A filled CRM form. -/
def crmFilled : CrmData :=
  { crm_id := "CRM-7", email := "cust@example.com", account_id := "acc-1"
    ticket_id := "t-9" }

/-- A blank CRM form (initial state of the agent portal). -/
def crmBlank : CrmData :=
  { crm_id := "", email := "", account_id := "", ticket_id := "" }

/-- Customer widget at step `nodeA`, nothing answered. -/
def cwStA : CWState :=
  { stepIndex := 0, currentStep := CWCurrent.node nodeA, answers := [] }

/-- Customer widget at step `nodeB` (required input "q1"), nothing answered. -/
def cwStB : CWState :=
  { stepIndex := 0, currentStep := CWCurrent.node nodeB, answers := [] }

/-- Customer widget at visible index 1 (step `nodeC1`) with the current
step's answer recorded under "q1". -/
def cwStEsc : CWState :=
  { stepIndex := 1, currentStep := CWCurrent.node nodeC1
    answers := [("q1", "b")] }

/-- An open escalation modal with a non-blank message. -/
def escForm : CWEscalationForm :=
  { showEscalation := true, escalationMessage := "help me"
    customerInfo := { email := "c@example.com", phone := "123" } }

/-- An open escalation modal whose message is whitespace only. -/
def escFormBlank : CWEscalationForm :=
  { showEscalation := true, escalationMessage := "   "
    customerInfo := { email := "c@example.com", phone := "123" } }

/-- Agent portal at step `nodeB` (required input "q1"), nothing answered. -/
def apStB : APState :=
  { stepIndex := 0, currentStep := some nodeB, answers := []
    crmData := crmFilled }

/-- Agent portal at step `nodeC0` with one answer recorded. -/
def apStC0 : APState :=
  { stepIndex := 0, currentStep := some nodeC0, answers := [("q1", "yes")]
    crmData := crmFilled }

/-! Theorems. -/

/-- A successful `findIdx?` lookup names the first matching position: the
element there satisfies the predicate and every earlier element fails it. -/
theorem findIdx?_first_match {α : Type} (p : α → Bool) :
    ∀ (l : List α) (i : Nat), l.findIdx? p = some i →
      (∃ m, l.get? i = some m ∧ p m = true)
      ∧ ∀ j, j < i → ∀ m2, l.get? j = some m2 → p m2 = false := by
  intro l
  induction l with
  | nil =>
      intro i h
      simp [List.findIdx?_nil] at h
  | cons x xs ih =>
      intro i h
      rw [List.findIdx?_cons] at h
      by_cases hx : p x = true
      · rw [if_pos hx] at h
        cases h
        refine ⟨⟨x, rfl, hx⟩, ?_⟩
        intro j hj
        omega
      · rw [if_neg hx] at h
        rw [List.findIdx?_succ] at h
        cases hxs : xs.findIdx? p with
        | none =>
            rw [hxs] at h
            exact Option.noConfusion h
        | some k =>
            rw [hxs] at h
            rw [Option.map_some'] at h
            obtain ⟨⟨m, hm, hpm⟩, hmin⟩ := ih k hxs
            cases h
            refine ⟨⟨m, by simpa using hm, hpm⟩, ?_⟩
            intro j hj m2 hm2
            cases j with
            | zero =>
                simp only [List.get?_cons_zero, Option.some_inj] at hm2
                subst hm2
                exact Bool.eq_false_iff.mpr (fun hc => hx hc)
            | succ j2 =>
                exact hmin j2 (by omega) m2 (by simpa using hm2)

/-- C6: for every graph, the customer-visible sequence is the node sequence
in original order with exactly the `visibility == agent` steps removed, the
agent-visible sequence is the full unfiltered sequence, the customer
sequence is an ordered subsequence of the agent sequence, and each runtime's
"step N of M" denominator equals the length of its role's visible
sequence. -/
theorem c6_visible_steps_subsequence :
    ∀ nodes : List FlowNode,
      (∀ n : FlowNode, n ∈ visibleSteps nodes Role.customer ↔
          n ∈ nodes ∧ n.visibility ≠ some "agent")
      ∧ visibleSteps nodes Role.agent = nodes
      ∧ (visibleSteps nodes Role.customer).Sublist (visibleSteps nodes Role.agent)
      ∧ cwStepDenominator nodes = (visibleSteps nodes Role.customer).length
      ∧ apStepDenominator nodes = (visibleSteps nodes Role.agent).length := by
  intro nodes
  refine ⟨?_, rfl, ?_, rfl, rfl⟩
  · intro n
    simp [visibleSteps, customerVisibleNodes, List.mem_filter]
  · exact List.filter_sublist nodes

/-- C8: with no user logged in every role check is false; `isAgent` holds
exactly for roles "agent" and "admin" (so admins pass every agent-role
guard), while `isAdmin` holds only for role "admin". -/
theorem c8_role_checks :
    ∀ (u : AuthUser) (q : RoleQuery),
      hasRole none q = false
      ∧ (isAgent (some u) = true ↔ (u.role = "agent" ∨ u.role = "admin"))
      ∧ (isAdmin (some u) = true ↔ u.role = "admin")
      ∧ (isAdmin (some u) = true → isAgent (some u) = true)
      ∧ isAgent none = false ∧ isAdmin none = false ∧ isCustomer none = false := by
  intro u q
  have hagent : isAgent (some u) = true ↔ (u.role = "agent" ∨ u.role = "admin") := by
    simp [isAgent, hasRole, List.contains_eq_any_beq]
  have hadmin : isAdmin (some u) = true ↔ u.role = "admin" := by
    simp [isAdmin, hasRole]
  refine ⟨rfl, hagent, hadmin, ?_, rfl, rfl, rfl⟩
  intro h
  exact hagent.mpr (Or.inr (hadmin.mp h))

/-- C9: whenever a backend response carries HTTP status 401, the response
interceptor logs the client out — the stored token is removed and the
current user becomes null — and the effect is the same for every API
operation (URL) carrying that status. -/
theorem c9_unauthorized_logout (st : AuthState) (err : AxiosErrorResponse)
    (h : err.status = some 401) :
    (responseInterceptorOnError st err).1.token = none
    ∧ (responseInterceptorOnError st err).1.user = none
    ∧ (∀ other : AxiosErrorResponse, other.status = some 401 →
        responseInterceptorOnError st other = responseInterceptorOnError st err) := by
  refine ⟨?_, ?_, ?_⟩
  · simp [responseInterceptorOnError, logout, h]
  · simp [responseInterceptorOnError, logout, h]
  · intro other hother
    simp [responseInterceptorOnError, logout, h, hother]

/-- C9 witness: a concrete 401 on `/api/guides` with a logged-in agent ends
with no token and no user. -/
theorem c9_unauthorized_logout_witness :
    (responseInterceptorOnError
        { token := some "tok"
          user := some { id := "u1", email := "agent@example.com", role := "agent" } }
        { status := some 401, url := "/api/guides" }).1.token = none
    ∧ (responseInterceptorOnError
        { token := some "tok"
          user := some { id := "u1", email := "agent@example.com", role := "agent" } }
        { status := some 401, url := "/api/guides" }).1.user = none := by
  exact ⟨(c9_unauthorized_logout _ _ rfl).1, (c9_unauthorized_logout _ _ rfl).2.1⟩

/-- C10: the agent portal's CRM submission is guarded — a CRM id that is
empty after trimming produces only an error toast, with no PATCH, no
`crm_form_submitted` event and no state change; any performed call implies a
non-blank CRM id; and the handler never changes the component state (in
particular the form fields). -/
theorem c10_crm_submit_guard :
    ∀ (sessionId agentId agentName : String) (sink : Nat → Bool) (st : APState),
      (jsTrim st.crmData.crm_id = "" →
          apHandleCrmSubmit sessionId agentId agentName sink st
            = { state := st, calls := [], toasts := ["CRM ID is required"] })
      ∧ ((apHandleCrmSubmit sessionId agentId agentName sink st).calls ≠ [] →
          jsTrim st.crmData.crm_id ≠ "")
      ∧ (apHandleCrmSubmit sessionId agentId agentName sink st).state = st := by
  intro sessionId agentId agentName sink st
  refine ⟨?_, ?_, ?_⟩
  · intro h
    simp [apHandleCrmSubmit, h]
  · intro hc h
    exact hc (by simp [apHandleCrmSubmit, h])
  · unfold apHandleCrmSubmit
    split
    · rfl
    · split
      · split
        · rfl
        · rfl
      · rfl

/-- C2 counterexample: at an agent-portal step whose input "q1" is required
and unanswered (the missing-input list is non-empty), `handleStepComplete`
does not fail with a validation error: it logs the event, shows no toast,
and advances from index 0 to index 1. -/
theorem c2_counterexample :
    cwMissingInputs nodeB.data [] ≠ []
    ∧ (apHandleStepComplete [nodeB, nodeC0] "s1" allOk apStB).state.stepIndex = 1
    ∧ (apHandleStepComplete [nodeB, nodeC0] "s1" allOk apStB).toasts = [] := by
  refine ⟨by decide, rfl, rfl⟩

/-- C2 amended: only the customer runtime validates required inputs — its
`handleStepComplete` fails with the validation toast, performs no calls and
keeps the state whenever some required input of the current step is missing
or blank after trimming, and a step with zero required inputs never takes
the validation branch (the `step_completed` call is always attempted); the
agent runtime's `handleStepComplete` never validates: from any step it
attempts the `step_completed` call regardless of the answer map. -/
theorem c2_validation_customer_only
    (nodes : List FlowNode) (sessionId : String) (sink : Nat → Bool)
    (st : CWState) (n : FlowNode) (hcur : st.currentStep = CWCurrent.node n)
    (ast : APState) (m : FlowNode) (hacur : ast.currentStep = some m) :
    (cwMissingInputs n.data st.answers ≠ [] →
        cwHandleStepComplete nodes sessionId sink st
          = { state := st, calls := []
              toasts := ["Please fill in all required fields"] })
    ∧ (cwRequiredInputs n.data = [] →
        (cwHandleStepComplete nodes sessionId sink st).calls.head?
          = some { req := Request.postEvent sessionId (some n.id) "step_completed"
                      (EventProps.answersProps st.answers), ok := sink 0 })
    ∧ ((apHandleStepComplete nodes sessionId sink ast).calls.head?
        = some { req := Request.postEvent sessionId (some m.id) "step_completed"
                    (EventProps.answersProps ast.answers), ok := sink 0 }) := by
  refine ⟨?_, ?_, ?_⟩
  · intro hmiss
    have hlen : (cwMissingInputs n.data st.answers).length > 0 :=
      List.length_pos.mpr hmiss
    simp [cwHandleStepComplete, hcur, CWCurrent.dataOf, hlen]
  · intro hreq
    have hmiss : cwMissingInputs n.data st.answers = [] := by
      simp [cwMissingInputs, hreq]
    cases hs : sink 0 with
    | false =>
        simp [cwHandleStepComplete, hcur, CWCurrent.dataOf, CWCurrent.stepId,
          hmiss, hs]
    | true =>
        cases hv : (customerVisibleNodes nodes)[st.stepIndex + 1]? with
        | some nextNode =>
            simp [cwHandleStepComplete, hcur, CWCurrent.dataOf, CWCurrent.stepId,
              hmiss, hs, hv]
        | none =>
            simp [cwHandleStepComplete, hcur, CWCurrent.dataOf, CWCurrent.stepId,
              hmiss, hs, hv]
  · cases hs : sink 0 with
    | false => simp [apHandleStepComplete, hacur, hs]
    | true =>
        cases hv : nodes[ast.stepIndex + 1]? with
        | some nextNode => simp [apHandleStepComplete, hacur, hs, hv]
        | none => simp [apHandleStepComplete, hacur, hs, hv]

/-- C2 witness: the customer widget at the unanswered required step `nodeB`
stays put with the validation toast and no backend calls. -/
theorem c2_validation_witness :
    cwHandleStepComplete [nodeB] "s1" allOk cwStB
      = { state := cwStB, calls := []
          toasts := ["Please fill in all required fields"] } := by
  exact (c2_validation_customer_only [nodeB] "s1" allOk cwStB nodeB rfl
    apStB nodeB rfl).1 (by decide)

/-- C3 counterexample: with the event-logging sink rejecting, the customer
widget's advance from the last (and only) visible step neither advances nor
completes: the state is unchanged, the session never reaches the completion
screen, and an error toast is surfaced — so effect-sink failure does block
the local transition, and advance from the last index does not yield
Completed. -/
theorem c3_counterexample :
    (cwHandleStepComplete [nodeA] "s1" allFail cwStA).state = cwStA
    ∧ (cwHandleStepComplete [nodeA] "s1" allFail cwStA).state.currentStep
        ≠ CWCurrent.completionScreen
    ∧ (cwHandleStepComplete [nodeA] "s1" allFail cwStA).toasts
        = ["Failed to complete step"] := by
  refine ⟨rfl, by decide, rfl⟩

/-- C3 amended: the customer widget's local transition is gated on the
effect calls rather than optimistic — when the `step_completed` call fails
the engine performs no further calls, stays at the current step and only
surfaces an error toast (nothing is rolled back because nothing advanced);
and advance from the last visible index reaches the Completed screen exactly
when the event, session-completion and `session_completed` calls all
succeed. -/
theorem c3_effect_failure_blocks
    (nodes : List FlowNode) (sessionId : String) (sink : Nat → Bool)
    (st : CWState) (n : FlowNode)
    (hcur : st.currentStep = CWCurrent.node n)
    (hsat : cwMissingInputs n.data st.answers = [])
    (hlast : (customerVisibleNodes nodes)[st.stepIndex + 1]? = none) :
    (sink 0 = false →
        cwHandleStepComplete nodes sessionId sink st
          = { state := st
              calls :=
                [{ req := Request.postEvent sessionId (some n.id)
                     "step_completed" (EventProps.answersProps st.answers)
                   ok := false }]
              toasts := ["Failed to complete step"] })
    ∧ ((cwHandleStepComplete nodes sessionId sink st).state.currentStep
          = CWCurrent.completionScreen
        ↔ (sink 0 = true ∧ sink 1 = true ∧ sink 2 = true)) := by
  constructor
  · intro h0
    simp [cwHandleStepComplete, hcur, CWCurrent.dataOf, CWCurrent.stepId,
      hsat, h0]
  · cases h0 : sink 0 with
    | false =>
        simp [cwHandleStepComplete, hcur, CWCurrent.dataOf, CWCurrent.stepId,
          hsat, h0]
    | true =>
        cases h1 : sink 1 with
        | false =>
            simp [cwHandleStepComplete, cwCompleteSession, hcur,
              CWCurrent.dataOf, CWCurrent.stepId, hsat, h0, h1, hlast]
        | true =>
            cases h2 : sink 2 with
            | false =>
                simp [cwHandleStepComplete, cwCompleteSession, hcur,
                  CWCurrent.dataOf, CWCurrent.stepId, hsat, h0, h1, h2, hlast]
            | true =>
                simp [cwHandleStepComplete, cwCompleteSession, hcur,
                  CWCurrent.dataOf, CWCurrent.stepId, hsat, h0, h1, h2, hlast]

/-- C3 witness: with every effect call succeeding, advance from the last
visible index reaches the Completed screen. -/
theorem c3_completion_witness :
    (cwHandleStepComplete [nodeA] "s1" allOk cwStA).state.currentStep
      = CWCurrent.completionScreen := by
  exact (c3_effect_failure_blocks [nodeA] "s1" allOk cwStA nodeA rfl
    (by decide) (by decide)).2.mpr ⟨rfl, rfl, rfl⟩

/-- C4 counterexample: the agent portal's final transition (single-step
graph, index 0) dispatches to `completeSession` directly: with every sink
succeeding it completes the session and emits one `session_completed` event
but zero `step_completed` events — no step_completed notification carries
the last step. -/
theorem c4_counterexample :
    countEvents (apAdvance [nodeC0] "s1" allOk apStC0).calls "step_completed" = 0
    ∧ countEvents (apAdvance [nodeC0] "s1" allOk apStC0).calls "session_completed" = 1
    ∧ (apAdvance [nodeC0] "s1" allOk apStC0).toasts
        = ["Session completed successfully!"] := by
  refine ⟨rfl, rfl, rfl⟩

/-- C4 amended: with all effect calls succeeding, the customer widget's
advance emits exactly one `step_completed` event carrying the current step's
id and the full answer snapshot, no `session_completed` event on a
non-final advance, and exactly one `session_completed` event on the final
advance (which reaches the Completed screen); the agent portal's non-final
advance likewise emits exactly one `step_completed` and no
`session_completed`, but its final transition runs `completeSession`
directly, emitting one `session_completed` and no `step_completed` for the
last step. -/
theorem c4_step_completed_emission
    (nodes : List FlowNode) (sessionId : String) (sink : Nat → Bool)
    (st : CWState) (n : FlowNode)
    (hcur : st.currentStep = CWCurrent.node n)
    (hsat : cwMissingInputs n.data st.answers = [])
    (hok : ∀ k, sink k = true)
    (ast : APState) (m : FlowNode) (hacur : ast.currentStep = some m) :
    countEvents (cwHandleStepComplete nodes sessionId sink st).calls
        "step_completed" = 1
    ∧ (cwHandleStepComplete nodes sessionId sink st).calls.head?
        = some { req := Request.postEvent sessionId (some n.id) "step_completed"
                    (EventProps.answersProps st.answers), ok := true }
    ∧ ((customerVisibleNodes nodes)[st.stepIndex + 1]? ≠ none →
        countEvents (cwHandleStepComplete nodes sessionId sink st).calls
            "session_completed" = 0)
    ∧ ((customerVisibleNodes nodes)[st.stepIndex + 1]? = none →
        countEvents (cwHandleStepComplete nodes sessionId sink st).calls
            "session_completed" = 1
        ∧ (cwHandleStepComplete nodes sessionId sink st).state.currentStep
            = CWCurrent.completionScreen)
    ∧ (nodes[ast.stepIndex + 1]? ≠ none →
        countEvents (apHandleStepComplete nodes sessionId sink ast).calls
            "step_completed" = 1
        ∧ countEvents (apHandleStepComplete nodes sessionId sink ast).calls
            "session_completed" = 0)
    ∧ countEvents (apCompleteSession sessionId sink 0 ast).calls
        "step_completed" = 0
    ∧ countEvents (apCompleteSession sessionId sink 0 ast).calls
        "session_completed" = 1 := by
  have h0 : sink 0 = true := hok 0
  have h1 : sink 1 = true := hok 1
  have h2 : sink 2 = true := hok 2
  refine ⟨?_, ?_, ?_, ?_, ?_, ?_, ?_⟩
  · cases hv : (customerVisibleNodes nodes)[st.stepIndex + 1]? with
    | some nextNode =>
        simp [cwHandleStepComplete, hcur, CWCurrent.dataOf, CWCurrent.stepId,
          hsat, h0, hv, countEvents]
    | none =>
        simp [cwHandleStepComplete, cwCompleteSession, hcur, CWCurrent.dataOf,
          CWCurrent.stepId, hsat, h0, h1, h2, hv, countEvents]
  · cases hv : (customerVisibleNodes nodes)[st.stepIndex + 1]? with
    | some nextNode =>
        simp [cwHandleStepComplete, hcur, CWCurrent.dataOf, CWCurrent.stepId,
          hsat, h0, hv]
    | none =>
        simp [cwHandleStepComplete, cwCompleteSession, hcur, CWCurrent.dataOf,
          CWCurrent.stepId, hsat, h0, h1, h2, hv]
  · intro hne
    cases hv : (customerVisibleNodes nodes)[st.stepIndex + 1]? with
    | some nextNode =>
        simp [cwHandleStepComplete, hcur, CWCurrent.dataOf, CWCurrent.stepId,
          hsat, h0, hv, countEvents]
    | none => exact absurd hv hne
  · intro hv
    constructor
    · simp [cwHandleStepComplete, cwCompleteSession, hcur, CWCurrent.dataOf,
        CWCurrent.stepId, hsat, h0, h1, h2, hv, countEvents]
    · simp [cwHandleStepComplete, cwCompleteSession, hcur, CWCurrent.dataOf,
        CWCurrent.stepId, hsat, h0, h1, h2, hv]
  · intro hne
    cases hv : nodes[ast.stepIndex + 1]? with
    | some nextNode =>
        constructor
        · simp [apHandleStepComplete, hacur, h0, hv, countEvents]
        · simp [apHandleStepComplete, hacur, h0, hv, countEvents]
    | none => exact absurd hv hne
  · simp [apCompleteSession, h0, h1, countEvents]
  · simp [apCompleteSession, h0, h1, countEvents]

/-- C4 witness: a concrete non-final customer advance (two visible steps)
emits exactly one `step_completed` event. -/
theorem c4_emission_witness :
    countEvents (cwHandleStepComplete [nodeA, nodeC0] "s1" allOk cwStA).calls
      "step_completed" = 1 := by
  exact (c4_step_completed_emission [nodeA, nodeC0] "s1" allOk cwStA nodeA rfl
    (by decide) (fun _ => rfl) apStC0 nodeC0 rfl).1

/-- C5 counterexample: for the graph [agent-only g, customer c0] and
identifier "c0" in the customer role, the source resolves index 1 — the
position in the raw node sequence — while the position within the
role-filtered visible sequence is 0. -/
theorem c5_counterexample :
    resolveStepIndexCW [nodeG, nodeC0] (some "c0") = 1
    ∧ specResolveStepIndex [nodeG, nodeC0] Role.customer (some "c0") = 0
    ∧ resolveStepIndexCW [nodeG, nodeC0] (some "c0")
        ≠ specResolveStepIndex [nodeG, nodeC0] Role.customer (some "c0") := by
  refine ⟨by decide, by decide, by decide⟩

/-- C5 amended: `resolveStepIndex` returns the position of the first step
matching the identifier (by slug or raw id) within the raw, role-unfiltered
node sequence — regardless of role — and returns 0 when no slug is given or
no step matches. -/
theorem c5_resolve_index_unfiltered
    (nodes : List FlowNode) (s : String) (hs : s ≠ "") :
    resolveStepIndexCW nodes none = 0
    ∧ (nodes.findIdx? (stepMatches s) = none →
        resolveStepIndexCW nodes (some s) = 0)
    ∧ ∀ i, nodes.findIdx? (stepMatches s) = some i →
        resolveStepIndexCW nodes (some s) = i
        ∧ (∃ m, nodes.get? i = some m ∧ stepMatches s m = true)
        ∧ (∀ j, j < i → ∀ m2, nodes.get? j = some m2 →
            stepMatches s m2 = false) := by
  refine ⟨rfl, ?_, ?_⟩
  · intro h
    simp [resolveStepIndexCW, hs, h]
  · intro i h
    refine ⟨by simp [resolveStepIndexCW, hs, h], ?_, ?_⟩
    · exact (findIdx?_first_match (stepMatches s) nodes i h).1
    · exact (findIdx?_first_match (stepMatches s) nodes i h).2

/-- C5 witness: the concrete lookup of "c0" in [g, c0] resolves to raw
position 1. -/
theorem c5_resolve_witness :
    resolveStepIndexCW [nodeG, nodeC0] (some "c0") = 1 := by
  exact ((c5_resolve_index_unfiltered [nodeG, nodeC0] "c0" (by decide)).2.2 1
    (by decide)).1

/-- C1 counterexample: for the customer session at visible index 1 of the
graph [agent-only g ("G0"), c0 ("C0"), c1 ("C1")], the escalation record's
snapshot holds the titles ["G0", "C0"] — the first two nodes of the raw
sequence — not the steps at visible indices 0 through 1, which are
["C0", "C1"]. -/
theorem c1_counterexample :
    ((cwEscalationData [nodeG, nodeC0, nodeC1] "s1" "g1" cwStEsc
        escForm).history_snapshot.map SnapshotEntry.step)
      = [some "G0", some "C0"]
    ∧ (((visibleSteps [nodeG, nodeC0, nodeC1] Role.customer).take 2).map
        FlowNode.title) = [some "C0", some "C1"]
    ∧ ((cwEscalationData [nodeG, nodeC0, nodeC1] "s1" "g1" cwStEsc
        escForm).history_snapshot.map SnapshotEntry.step)
      ≠ (((visibleSteps [nodeG, nodeC0, nodeC1] Role.customer).take 2).map
        FlowNode.title) := by
  refine ⟨rfl, rfl, by decide⟩

/-- C1 amended: the escalation record the customer widget hands to the sink
contains exactly k+1 step-answer pairs (k the current step index, with
k < number of raw nodes), in order — but the steps are positions 0 through
k of the raw, role-unfiltered node sequence, and every pair carries the
engine's single current answer map rather than the answers recorded for
that step. -/
theorem c1_escalation_snapshot
    (nodes : List FlowNode) (sessionId guideId : String) (sink : Nat → Bool)
    (st : CWState) (form : CWEscalationForm) (n : FlowNode)
    (hcur : st.currentStep = CWCurrent.node n)
    (hmsg : jsTrim form.escalationMessage ≠ "")
    (hidx : st.stepIndex < nodes.length) :
    ((cwHandleEscalation nodes sessionId guideId sink st form).calls.head?
        = some { req := Request.postCWEscalation
                    (cwEscalationData nodes sessionId guideId st form)
                 ok := sink 0 })
    ∧ (cwEscalationData nodes sessionId guideId st form).history_snapshot.length
        = st.stepIndex + 1
    ∧ ((cwEscalationData nodes sessionId guideId st form).history_snapshot.map
          SnapshotEntry.step)
        = ((nodes.take (st.stepIndex + 1)).map FlowNode.title)
    ∧ (∀ e ∈ (cwEscalationData nodes sessionId guideId st form).history_snapshot,
        e.answers = st.answers)
    ∧ (∀ (agentEmail : String) (ast : APState) (acur : FlowNode),
        ast.stepIndex < nodes.length →
        (apEscalationData nodes sessionId guideId agentEmail ast
            acur).history_snapshot.length = ast.stepIndex + 1) := by
  refine ⟨?_, ?_, ?_, ?_, ?_⟩
  · cases h0 : sink 0 with
    | false => simp [cwHandleEscalation, hcur, hmsg, h0]
    | true =>
        cases h1 : sink 1 with
        | false => simp [cwHandleEscalation, hcur, hmsg, h0, h1]
        | true => simp [cwHandleEscalation, hcur, hmsg, h0, h1]
  · simp [cwEscalationData]
    omega
  · simp only [cwEscalationData, List.map_map]
    rfl
  · intro e he
    simp only [cwEscalationData] at he
    rw [List.mem_map] at he
    obtain ⟨x, hx, heq⟩ := he
    subst heq
    rfl
  · intro agentEmail ast acur hlt
    simp [apEscalationData]
    omega

/-- C1 witness: the concrete escalation snapshot at index 1 of a
three-node graph holds exactly two entries. -/
theorem c1_snapshot_witness :
    (cwEscalationData [nodeG, nodeC0, nodeC1] "s1" "g1" cwStEsc
        escForm).history_snapshot.length = 2 := by
  exact (c1_escalation_snapshot [nodeG, nodeC0, nodeC1] "s1" "g1" allOk
    cwStEsc escForm nodeC1 rfl (by decide) (by decide)).2.1

/-- C7 counterexample: the agent portal's escalation, submitted
successfully, performs exactly one call (the escalation record) and zero
`escalation_submitted` events — no notification accompanies the record. -/
theorem c7_counterexample :
    countEvents (apHandleEscalation [nodeC0] "s1" "g1" "agent@example.com"
        allOk apStC0).calls "escalation_submitted" = 0
    ∧ (apHandleEscalation [nodeC0] "s1" "g1" "agent@example.com"
        allOk apStC0).calls.length = 1
    ∧ (apHandleEscalation [nodeC0] "s1" "g1" "agent@example.com"
        allOk apStC0).toasts = ["Escalation submitted successfully"] := by
  refine ⟨rfl, rfl, rfl⟩

/-- C7 amended: the customer widget rejects a blank escalation message with
a toast and no calls, leaves the traversal state (index and answers)
unchanged in every outcome, and emits one `escalation_submitted` event
exactly when the escalation call itself succeeds; the agent portal also
never changes state but posts only the escalation record — it emits no
`escalation_submitted` event at all and performs no message check (its
message is a generated template string). -/
theorem c7_escalation_state_and_events
    (nodes : List FlowNode) (sessionId guideId agentEmail : String)
    (sink : Nat → Bool) (st : CWState) (form : CWEscalationForm)
    (ast : APState) :
    (jsTrim form.escalationMessage = "" →
        cwHandleEscalation nodes sessionId guideId sink st form
          = { state := (st, form), calls := []
              toasts := ["Please describe your issue"] })
    ∧ (cwHandleEscalation nodes sessionId guideId sink st form).state.1 = st
    ∧ (jsTrim form.escalationMessage ≠ "" → st.currentStep ≠ CWCurrent.noStep →
        countEvents (cwHandleEscalation nodes sessionId guideId sink st
            form).calls "escalation_submitted" = if sink 0 then 1 else 0)
    ∧ (apHandleEscalation nodes sessionId guideId agentEmail sink ast).state
        = ast
    ∧ countEvents (apHandleEscalation nodes sessionId guideId agentEmail sink
        ast).calls "escalation_submitted" = 0 := by
  refine ⟨?_, ?_, ?_, ?_, ?_⟩
  · intro h
    simp [cwHandleEscalation, h]
  · by_cases hb : jsTrim form.escalationMessage = ""
    · simp [cwHandleEscalation, hb]
    · cases hc : st.currentStep with
      | noStep => simp [cwHandleEscalation, hb, hc]
      | completionScreen =>
          cases h0 : sink 0 <;> cases h1 : sink 1 <;>
            simp [cwHandleEscalation, hb, hc, h0, h1]
      | node n =>
          cases h0 : sink 0 <;> cases h1 : sink 1 <;>
            simp [cwHandleEscalation, hb, hc, h0, h1]
  · intro hb hns
    cases hc : st.currentStep with
    | noStep => exact absurd hc hns
    | completionScreen =>
        cases h0 : sink 0 <;> cases h1 : sink 1 <;>
          simp [cwHandleEscalation, hb, hc, h0, h1, countEvents]
    | node n =>
        cases h0 : sink 0 <;> cases h1 : sink 1 <;>
          simp [cwHandleEscalation, hb, hc, h0, h1, countEvents]
  · cases hc : ast.currentStep with
    | none => simp [apHandleEscalation, hc]
    | some cur => cases h0 : sink 0 <;> simp [apHandleEscalation, hc, h0]
  · cases hc : ast.currentStep with
    | none => simp [apHandleEscalation, hc, countEvents]
    | some cur =>
        cases h0 : sink 0 <;> simp [apHandleEscalation, hc, h0, countEvents]

end GuidedFlow
